import Mathlib

/-!
# Verification of the tss-sdk-go authentication subsystem

A shallow embedding of the token-acquisition / token-cache / deployment-
detection / NTLM-handshake code of the `tss-sdk-go` repository
(`server/server.go`, `client/ntlm_auth_windows.go`,
`client/ntlm_auth_others.go`), together with theorems settling the
specification claims about it.

Modelling conventions:
* Go machine integers (`int`, 64-bit) are modelled as `Int`; Unix times are
  `Int` seconds passed explicitly (`time.Now().Unix()` becomes a `now`
  parameter).
* The process environment (`os.Setenv` / `os.LookupEnv`) is threaded
  explicitly as an association list `Env`.
* Network responses are supplied by explicit oracle arguments; every network
  round trip a function performs is additionally recorded in an event trace,
  so "issues no network call" is the statement that the trace is empty.
* Go standard-library JSON (`encoding/json`) and base64
  (`encoding/base64`) codecs are external library code; their outcomes are
  abstracted (a parse either fails or yields the decoded Go value).
* All strings that reach the byte-level Go operations in scope are ASCII,
  so Go's byte-wise operations coincide with the `Char`-wise ones used here.
-/

namespace TssSdk

/-! ## Go string primitives -/

/-- Go `strings.Contains(s, sub)`. -/
def goContains (s sub : String) : Bool :=
  decide (List.IsInfix sub.data s.data)

/-- Go `strings.HasPrefix(s, p)` (byte-wise, which on ASCII input
coincides with the character-wise test). -/
def goStartsWith (s p : String) : Bool :=
  p.data.isPrefixOf s.data

/-- Upper-case hexadecimal digit, as used by Go `net/url` escaping
(`"0123456789ABCDEF"`). -/
def hexUpperDigit (n : Nat) : Char :=
  if n < 10 then Char.ofNat (48 + n) else Char.ofNat (55 + n)

/-- Go `net/url.shouldEscape(c, encodeQueryComponent)`: every byte except
ASCII alphanumerics and `-` `_` `.` `~` is escaped in a query component. -/
def shouldEscapeQuery (c : Char) : Bool :=
  !((65 ≤ c.toNat && c.toNat ≤ 90) || (97 ≤ c.toNat && c.toNat ≤ 122) ||
    (48 ≤ c.toNat && c.toNat ≤ 57) ||
    c = '-' || c = '_' || c = '.' || c = '~')

/-- One character of Go `url.QueryEscape`: space becomes `+`, other escaped
bytes become `%XX` with upper-case hex, the rest pass through. -/
def queryEscapeChar (c : Char) : List Char :=
  if c = ' ' then ['+']
  else if shouldEscapeQuery c then
    ['%', hexUpperDigit (c.toNat / 16), hexUpperDigit (c.toNat % 16)]
  else [c]

/-- Go `url.QueryEscape` (on ASCII input, where Go's byte loop coincides
with a character loop). -/
def queryEscape (s : String) : String :=
  ⟨(s.data.map queryEscapeChar).flatten⟩

/-! ## The process environment used as token store

`server.go` stores cached tokens in process environment variables named
`"SS_AT_" + url.QueryEscape(baseURL)`.  The environment is modelled as an
association list.  The values written under these keys by the code itself
are only ever (a) `json.Marshal` of a `TokenCache` value, or (b) the empty
string written by `clearTokenCache`; `json.Unmarshal` into `TokenCache`
succeeds exactly on the former (a marshalled struct of a `string` and an
`int` field always round-trips) and fails on the empty string.  `EnvVal`
records which of the two shapes a stored value has. -/

inductive EnvVal where
  /-- `json.Marshal` of `TokenCache{AccessToken: accessToken, ExpiresIn: expiresIn}`. -/
  | tokenJSON (accessToken : String) (expiresIn : Int)
  /-- The empty string `""`, as written by `clearTokenCache`. -/
  | emptyStr
deriving DecidableEq, Repr

abbrev Env := List (String × EnvVal)

/-- Go `os.Setenv`: overwrite the binding of `k` if present, else add it. -/
def setenv : Env → String → EnvVal → Env
  | [], k, v => [(k, v)]
  | (k', v') :: rest, k, v =>
    if k' = k then (k, v) :: rest else (k', v') :: setenv rest k v

/-- Go `os.LookupEnv`: `some` value iff the variable is set. -/
def lookupEnv (e : Env) (k : String) : Option EnvVal :=
  (e.find? (fun p => p.1 = k)).map (·.2)

/-- The `TokenCache` struct of `server.go` (`access_token`, `expires_in`).
Despite its name, the code stores an absolute Unix expiry time in the
`ExpiresIn` field. -/
structure TokenCache where
  accessToken : String
  expiresIn : Int
deriving DecidableEq, Repr

/-- `json.Unmarshal` of a stored environment value into `TokenCache`:
succeeds on a marshalled `TokenCache`, fails on the empty string. -/
def unmarshalTokenCache : EnvVal → Option TokenCache
  | .tokenJSON a e => some ⟨a, e⟩
  | .emptyStr => none

/-- The environment-variable key `"SS_AT_" + url.QueryEscape(baseURL)`. -/
def cacheKey (baseURL : String) : String :=
  "SS_AT_" ++ queryEscape baseURL

/-! ## The `Server` receiver state -/

/-- `UserCredential` of `server.go`. -/
structure UserCredential where
  domain : String
  username : String
  password : String
  token : String
deriving DecidableEq, Repr

/-- The fields of the `Server` receiver that the authentication code reads
or writes (`Credentials`, `ServerURL`, `Tenant`, `TLD`).  `ServerURL` is
mutable: the platform flow pins the discovered vault URL into it. -/
structure Server where
  credentials : UserCredential
  serverURL : String
  tld : String
  tenant : String
deriving DecidableEq, Repr

/-- The base-URL computation repeated in `getAccessToken` and
`clearTokenCache`: `ServerURL` if set, else
`fmt.Sprintf("https://%s.secretservercloud.%s/", Tenant, TLD)`. -/
def Server.baseURL (s : Server) : String :=
  if s.serverURL = "" then
    "https://" ++ s.tenant ++ ".secretservercloud." ++ s.tld ++ "/"
  else s.serverURL

/-! ## The token cache operations (`server.go:319-355`) -/

/-- `int(math.Floor(float64(expiresIn)*0.9))`.  For `|expiresIn| ≤ 2^52`
the `float64` computation is exact enough that the result equals the
floor of the rational `9·expiresIn/10`, which is how it is modelled
(`Int.fdiv` is floor division). -/

def floorPointNine (expiresIn : Int) : Int :=
  Int.fdiv (9 * expiresIn) 10

/-- `setCacheAccessToken`: computes
`(now + expiresIn) - int(math.Floor(float64(expiresIn)*0.9))` and stores
the marshalled `TokenCache` under `"SS_AT_" + url.QueryEscape(baseURL)`.
(The unused receiver and `ctx` are omitted; the function always returns
`nil` in Go, so no error component is modelled.) -/
def setCacheAccessToken (env : Env) (now : Int) (value : String)
    (expiresIn : Int) (baseURL : String) : Env :=
  let expiry := (now + expiresIn) - floorPointNine expiresIn
  setenv env (cacheKey baseURL) (.tokenJSON value expiry)

/-- `clearTokenCache`: recomputes the server's *current* base URL and sets
the corresponding environment variable to the empty string. -/
def clearTokenCache (s : Server) (env : Env) : Env :=
  setenv env (cacheKey s.baseURL) .emptyStr

/-- `getCacheAccessToken`: looks up the variable for `baseURL`.  If unset,
calls `clearTokenCache` (a write!) and reports not-found.  If set but not
unmarshallable, reports not-found.  If unmarshalled and
`time.Now().Unix() < cache.ExpiresIn`, returns the token; otherwise
reports not-found *without* modifying the store.  The returned `Env` is
the (possibly written) environment. -/
def getCacheAccessToken (s : Server) (env : Env) (now : Int)
    (baseURL : String) : (String × Bool) × Env :=
  match lookupEnv env (cacheKey baseURL) with
  | none => (("", false), clearTokenCache s env)
  | some v =>
    match unmarshalTokenCache v with
    | none => (("", false), env)
    | some cache =>
      if now < cache.expiresIn then ((cache.accessToken, true), env)
      else (("", false), env)

/-! ## Health probes (`checkJSONResponse`, `server.go:508-531`) -/

/-- The observable outcome of one `http.Get` health probe together with
reading its body. -/
inductive ProbeBody where
  /-- `http.Get` returned an error, or reading the body failed. -/
  | netError
  /-- A body was read.  `jsonHealthy` abstracts
  `json.Unmarshal(body, &Response)`: `some h` when the body parses as JSON
  with `h` the value of its `healthy` field, `none` when parsing fails. -/
  | bodyRead (body : String) (jsonHealthy : Option Bool)
deriving DecidableEq, Repr

/-- `checkJSONResponse`: network or read errors yield `false`; a parsed
JSON body yields its `healthy` field; an unparsable body falls back to a
case-sensitive substring check for `"Healthy"`. -/
def checkJSONResponse : ProbeBody → Bool
  | .netError => false
  | .bodyRead body jsonHealthy =>
    match jsonHealthy with
    | some h => h
    | none => goContains body "Healthy"

/-! ## Vault discovery data (`server.go:551-568`) -/

structure Connection where
  url : String
  oAuthProfileId : String
deriving DecidableEq, Repr

structure Vault where
  vaultId : String
  name : String
  vaultType : String
  isDefault : Bool
  isGlobalDefault : Bool
  isActive : Bool
  connection : Connection
deriving DecidableEq, Repr

structure VaultsResponseModel where
  vaults : List Vault
deriving DecidableEq, Repr

/-- The `OAuthTokens` response struct (platform token endpoint). -/
structure OAuthTokens where
  accessToken : String
  refreshToken : String
  idToken : String
  tokenType : String
  expiresIn : Int
  sessionExpiresIn : Int
  scope : String
deriving DecidableEq, Repr

/-- The anonymous grant-response struct of `getAccessToken`
(`access_token`, `refresh_token`, `token_type`, `expires_in`). -/
structure Grant where
  accessToken : String
  refreshToken : String
  tokenType : String
  expiresIn : Int
deriving DecidableEq, Repr

/-- The vault-selection loop of `checkPlatformDetails` (`server.go:489-495`):
`vaultURL` starts empty; the first vault with `IsDefault && IsActive` sets
it and breaks. -/
def selectVaultURL : List Vault → String
  | [] => ""
  | v :: rest =>
    if v.isDefault && v.isActive then v.connection.url else selectVaultURL rest

/-! ## Oracle and event trace for the network calls of `getAccessToken` -/

/-- Outcome of one HTTP exchange whose body is then JSON-unmarshalled:
`failure` covers both a transport/`handleResponse` error and a JSON parse
error (the Go code returns `("", err)` in either case). -/
inductive RespOutcome (α : Type) where
  | failure
  | success (val : α)
deriving DecidableEq, Repr

/-- One network round trip performed by the token-acquisition code. -/
inductive NetEvent where
  /-- `GET {base}/healthcheck.aspx` (on-prem/cloud health probe). -/
  | getSSHealth
  /-- `GET {base}/health` (platform health probe). -/
  | getPlatformHealth
  /-- `POST {base}/identity/api/oauth2/token/xpmplatform` (client-credentials grant). -/
  | postPlatformToken
  /-- `GET {base}/vaultbroker/api/vaults` (vault discovery). -/
  | getVaults
  /-- `POST` to the token endpoint (resource-owner password grant). -/
  | postPasswordGrant
deriving DecidableEq, Repr

/-- The responses the network would give to each call `getAccessToken` may
make.  The fixed URLs of the calls are documented on `NetEvent`. -/
structure Oracle where
  ssProbe : ProbeBody
  platformProbe : ProbeBody
  platformTokenResp : RespOutcome OAuthTokens
  vaultsResp : RespOutcome VaultsResponseModel
  passwordGrantResp : RespOutcome Grant
deriving DecidableEq, Repr

/-- Errors returned by the embedded functions. -/
inductive GoErr where
  /-- `"invalid URL"` — neither health probe reported healthy. -/
  | invalidURL
  /-- `"no configured vault found"`. -/
  | noVaultFound
  /-- A transport or JSON-parse error surfaced from the named stage. -/
  | httpOrParse (stage : String)
  /-- `"unknown resource"`. -/
  | unknownResource
deriving DecidableEq, Repr

/-! ## `checkPlatformDetails` (`server.go:422-506`) -/

/-- `checkPlatformDetails(ctx, baseURL)`.  Returns the Go `(string, error)`
pair as `Except GoErr String` (`.ok ""` = on-prem/cloud detected, password
flow to be used; `.ok tok` = platform flow succeeded with access token
`tok`), the updated receiver (the platform flow pins the discovered vault
URL into `ServerURL`), the updated environment, and the trace of network
calls made. -/
def checkPlatformDetails (s : Server) (env : Env) (now : Int) (o : Oracle)
    (baseURL : String) : Except GoErr String × Server × Env × List NetEvent :=
  if checkJSONResponse o.ssProbe then
    (.ok "", s, env, [.getSSHealth])
  else if checkJSONResponse o.platformProbe then
    let probes : List NetEvent := [.getSSHealth, .getPlatformHealth]
    let ((cachedTok, found), env1) := getCacheAccessToken s env now baseURL
    -- the `if !found` block: client-credentials grant, then cache the token
    let afterGrant : Except GoErr (String × Env × List NetEvent) :=
      if found then .ok (cachedTok, env1, probes)
      else
        match o.platformTokenResp with
        | .failure => .error (.httpOrParse "platform token")
        | .success tk =>
          .ok (tk.accessToken,
               setCacheAccessToken env1 now tk.accessToken tk.expiresIn baseURL,
               probes ++ [.postPlatformToken])
    match afterGrant with
    | .error e => (.error e, s, env1,
        probes ++ [.postPlatformToken])
    | .ok (accessToken, env2, tr) =>
      -- vault discovery and pinning
      match o.vaultsResp with
      | .failure => (.error (.httpOrParse "vaults"), s, env2, tr ++ [.getVaults])
      | .success vr =>
        let vaultURL := selectVaultURL vr.vaults
        if vaultURL ≠ "" then
          (.ok accessToken, { s with serverURL := vaultURL }, env2, tr ++ [.getVaults])
        else
          (.error .noVaultFound, s, env2, tr ++ [.getVaults])
  else
    (.error .invalidURL, s, env, [.getSSHealth, .getPlatformHealth])

/-! ## `getAccessToken` (`server.go:359-420`) -/

/-- `getAccessToken(ctx)`.  A non-empty static `Credentials.Token` is
returned at once (empty trace, nothing touched).  Otherwise
`checkPlatformDetails` runs; its error is propagated; the empty response
selects the on-prem/cloud branch (cache lookup, then password grant,
caching the granted token); a non-empty response (the platform token) is
returned as is. -/
def getAccessToken (s : Server) (env : Env) (now : Int) (o : Oracle) :
    Except GoErr String × Server × Env × List NetEvent :=
  if s.credentials.token ≠ "" then
    (.ok s.credentials.token, s, env, [])
  else
    let baseURL := s.baseURL
    match checkPlatformDetails s env now o baseURL with
    | (.error e, s1, env1, tr) => (.error e, s1, env1, tr)
    | (.ok response, s1, env1, tr) =>
      if response = "" then
        let ((cachedTok, found), env2) := getCacheAccessToken s1 env1 now baseURL
        if found then (.ok cachedTok, s1, env2, tr)
        else
          match o.passwordGrantResp with
          | .failure => (.error (.httpOrParse "token response"), s1, env2,
              tr ++ [.postPasswordGrant])
          | .success grant =>
            (.ok grant.accessToken, s1,
             setCacheAccessToken env2 now grant.accessToken grant.expiresIn baseURL,
             tr ++ [.postPasswordGrant])
      else
        (.ok response, s1, env1, tr)

/-! ## The authenticated request dispatcher (`accessResource`,
`searchResources`; `server.go:152-261`)

The HTTP exchange `handleResponse(s.httpClient.Do(req))` is abstracted as
an `ApiResponse` argument carrying the three results the Go code binds:
the body data, the response's status code, and the error.  (Request
construction, body marshalling and URL formatting are not modelled; they
do not touch the token cache.) -/

structure ApiResponse where
  data : String
  statusCode : Nat
  err : Option GoErr
deriving DecidableEq, Repr

/-- `accessResource(ctx, method, resource, path, input)` restricted to its
token and cache behaviour.  After the call, a status code of 401 or 403
triggers `clearTokenCache`. -/
def accessResource (s : Server) (env : Env) (now : Int) (o : Oracle)
    (resource : String) (apiResp : ApiResponse) :
    (String × Option GoErr) × Server × Env :=
  if ¬(resource = "secrets" ∨ resource = "secret-templates") then
    (("", some .unknownResource), s, env)
  else
    match getAccessToken s env now o with
    | (.error e, s1, env1, _) => (("", some e), s1, env1)
    | (.ok _accessToken, s1, env1, _) =>
      let env2 :=
        if apiResp.statusCode = 401 ∨ apiResp.statusCode = 403 then
          clearTokenCache s1 env1
        else env1
      ((apiResp.data, apiResp.err), s1, env2)

/-- `searchResources(ctx, resource, searchText, field)` restricted to its
token and cache behaviour.  The status code of the response is bound to
`_` in the Go code: no 401/403 check and no cache clear happen here. -/
def searchResources (s : Server) (env : Env) (now : Int) (o : Oracle)
    (resource : String) (apiResp : ApiResponse) :
    (String × Option GoErr) × Server × Env :=
  if ¬(resource = "secrets") then
    (("", some .unknownResource), s, env)
  else
    match getAccessToken s env now o with
    | (.error e, s1, env1, _) => (("", some e), s1, env1)
    | (.ok _accessToken, s1, env1, _) =>
      ((apiResp.data, apiResp.err), s1, env1)

/-! ## NTLM authenticator (`client/ntlm_auth_windows.go`,
`client/ntlm_auth_others.go`) -/

/-- The parts of an `http.Response` the handshake inspects:
`res.StatusCode` and `res.Header["Www-Authenticate"]` (the `found` flag of
the map lookup is the `Option`; the value is the list of header values). -/
structure NtlmResponse where
  statusCode : Nat
  wwwAuthenticate : Option (List String)
deriving DecidableEq, Repr

/-- `checkNTLM` (the probe leg): requires status 401 and some
`Www-Authenticate` value equal to the exact string `"NTLM"`.  The `none`
response models a transport error of `doReq`. -/
def checkNTLM (resp : Option NtlmResponse) : Except String Unit :=
  match resp with
  | none => .error "transport error"
  | some res =>
    if res.statusCode ≠ 401 then .error "Unauthorized expected"
    else
      match res.wwwAuthenticate with
      | none => .error "Www-Authenticate not found"
      | some authHeaders =>
        if authHeaders.contains "NTLM" then .ok ()
        else .error "Www-Authenticate header does not contain NTLM"

/-- `doNTLMNegotiate` (the negotiate leg), for a given server response.
`decode` abstracts `base64.StdEncoding.DecodeString` (`none` = decode
error); byte slicing `authHeaders[0][5:]` and `len` coincide with
character operations on the ASCII header values in scope.  Returns the
decoded Type-2 challenge. -/
def doNTLMNegotiate (decode : String → Option (List Nat))
    (resp : Option NtlmResponse) : Except String (List Nat) :=
  match resp with
  | none => .error "transport error"
  | some res =>
    if res.statusCode ≠ 401 then .error "Unauthorized expected"
    else
      match res.wwwAuthenticate with
      | none => .error "Www-Authenticate not found"
      | some authHeaders =>
        match authHeaders with
        | [h] =>
          if h.length < 6 then .error "Www-Authenticate header is to short"
          else if ¬(goStartsWith h "NTLM ") then
            .error "Www-Authenticate header is suppose to starts with NTLM"
          else
            match decode (h.drop 5) with
            | none => .error "base64 decode error"
            | some challenge => .ok challenge
        | _ => .error "Only one Www-Authenticate header expected"

/-- The three legs of the handshake as observable sends. -/
inductive NtlmEvent where
  | probeReq
  | negotiateReq
  | authenticateReq
deriving DecidableEq, Repr

/-- Oracle for one windows `RoundTrip`: outcomes of credential
acquisition, context creation, the two intermediate server responses, the
`secctx.Update` computation, and the final replay's response status. -/
structure NtlmOracle where
  acquireCredsOk : Bool
  negotiateMsg : List Nat
  probeResp : Option NtlmResponse
  negotiateResp : Option NtlmResponse
  update : List Nat → Option (List Nat)
  finalStatus : Nat

/-- The windows `ntlmAuthenticator.RoundTrip`, with the trace of handshake
legs actually sent.  (The `/api/v1 → /winauthwebservices` path rewrite
precedes the handshake and does not affect its control flow.) -/
def ntlmRoundTrip (decode : String → Option (List Nat)) (o : NtlmOracle) :
    Except String Nat × List NtlmEvent :=
  if ¬o.acquireCredsOk then (.error "AcquireCurrentUserCredentials", [])
  else
    match checkNTLM o.probeResp with
    | .error e => (.error e, [.probeReq])
    | .ok _ =>
      match doNTLMNegotiate decode o.negotiateResp with
      | .error e => (.error e, [.probeReq, .negotiateReq])
      | .ok challenge =>
        match o.update challenge with
        | none => (.error "secctx.Update", [.probeReq, .negotiateReq])
        | some _authenticate =>
          (.ok o.finalStatus, [.probeReq, .negotiateReq, .authenticateReq])

/-- Outcome of a Go call that can also abort the process. -/
inductive GoOutcome (α : Type) where
  | ok (val : α)
  | err (msg : String)
  | panicked (msg : String)
deriving DecidableEq, Repr

def GoOutcome.isPanicked : GoOutcome α → Bool
  | .panicked _ => true
  | _ => false

def GoOutcome.isErr : GoOutcome α → Bool
  | .err _ => true
  | _ => false

/-- The non-windows `ntlmAuthenticator.RoundTrip`
(`client/ntlm_auth_others.go:7-9`): unconditionally
`panic("NTLM authentication is only implemented on Windows")`.  The
request is the rewritten-or-not URL path; it is ignored. -/
def ntlmRoundTripOthers (_reqURLPath : String) : GoOutcome NtlmResponse :=
  .panicked "NTLM authentication is only implemented on Windows"

/-! ## `New` (`server.go:66-99`) -/

/-- The dynamic value stored in an `http.Client.Transport` interface field:
`none` is the nil interface (the default client), and a non-nil interface
holds either a `*http.Transport` (possibly a nil pointer) or some other
`RoundTripper` implementation. -/
inductive TransportVal where
  | httpTransport (isNilPointer : Bool)
  | otherRoundTripper
deriving DecidableEq, Repr

structure HttpClient where
  transport : Option TransportVal
deriving DecidableEq, Repr

/-- The `Configuration` struct (the `*tls.Config` pointer is modelled by
whether it is nil; its contents are irrelevant to control flow). -/
structure Configuration where
  credentials : UserCredential
  serverURL : String
  tld : String
  tenant : String
  apiPathURI : String
  tokenPathURI : String
  tlsClientConfig : Option Unit
deriving DecidableEq, Repr

/-- The full `Server` value `New` builds. -/
structure ServerHandle where
  config : Configuration
  httpClient : HttpClient
deriving DecidableEq, Repr

/-- Go `strings.Trim(s, "/")`: drop leading and trailing `/` characters. -/
def goTrimSlash (s : String) : String :=
  ⟨(s.data.dropWhile (· = '/')).reverse.dropWhile (· = '/') |>.reverse⟩

/-- `New(config, opts...)` with the only defined option, `WithHttpClient`,
modelled by the optional `optClient` argument.  Validation of
ServerURL-xor-Tenant comes first; then defaulting/trimming; then the
option and the default client; finally, for a non-nil `TLSClientConfig`,
the assignment
`server.httpClient.Transport.(*http.Transport).TLSClientConfig = ...`:
the type assertion panics on a nil interface or a non-`*http.Transport`
value, and the field write panics on a nil `*http.Transport` pointer. -/
def New (config : Configuration) (optClient : Option HttpClient) :
    GoOutcome ServerHandle :=
  if (config.serverURL = "" ∧ config.tenant = "") ∨
     (config.serverURL ≠ "" ∧ config.tenant ≠ "") then
    .err "either ServerURL of Secret Server/Platform or Tenant of Secret Server Cloud must be set"
  else
    let config :=
      { config with
        tld := if config.tld = "" then "com" else config.tld
        apiPathURI :=
          goTrimSlash (if config.apiPathURI = "" then "/api/v1" else config.apiPathURI)
        tokenPathURI :=
          goTrimSlash (if config.tokenPathURI = "" then "/oauth2/token" else config.tokenPathURI) }
    let client : HttpClient :=
      match optClient with
      | some c => c
      | none => { transport := none }   -- `&http.Client{}`
    if config.tlsClientConfig ≠ none then
      match client.transport with
      | some (.httpTransport false) => .ok { config := config, httpClient := client }
      | some (.httpTransport true) =>
        .panicked "runtime error: invalid memory address or nil pointer dereference"
      | some .otherRoundTripper =>
        .panicked "interface conversion: http.RoundTripper is not *http.Transport"
      | none =>
        .panicked "interface conversion: interface is nil, not *http.Transport"
    else
      .ok { config := config, httpClient := client }

/-! ## Helper lemmas about the environment store -/

theorem lookup_setenv_self (e : Env) (k : String) (v : EnvVal) :
    lookupEnv (setenv e k v) k = some v := by
  induction e with
  | nil => simp [setenv, lookupEnv, List.find?]
  | cons p rest ih =>
    by_cases h : p.1 = k
    · simp [setenv, h, lookupEnv, List.find?]
    · simp only [setenv, h, if_false]
      simpa [lookupEnv, List.find?, h] using ih

theorem lookup_setenv_ne (e : Env) (k k' : String) (v : EnvVal)
    (h : k' ≠ k) : lookupEnv (setenv e k v) k' = lookupEnv e k' := by
  induction e with
  | nil => simp [setenv, lookupEnv, List.find?, Ne.symm h]
  | cons p rest ih =>
    obtain ⟨pk, pv⟩ := p
    by_cases hp : pk = k
    · subst hp
      simp [setenv, lookupEnv, List.find?, Ne.symm h]
    · by_cases hp' : pk = k'
      · simp [setenv, hp, lookupEnv, List.find?, hp', h]
      · simp only [setenv, hp, if_false]
        simpa [lookupEnv, List.find?, hp'] using ih

/-- The `float64` margin computation agrees with the mathematical floor of
`0.9 · expiresIn`. -/
theorem floorPointNine_eq_floor (n : Int) :
    floorPointNine n = ⌊(9 * n : ℚ) / 10⌋ := by
  rw [floorPointNine, Int.fdiv_eq_ediv _ (by norm_num)]
  rw [show ((9 * n : ℚ) / 10) = (((9 * n : ℤ) : ℚ) / ((10 : ℕ) : ℚ)) by push_cast; ring]
  rw [Rat.floor_intCast_div_natCast (9 * n) 10]
  norm_num

/-- The vault loop computes the `connection.url` of the first matching
vault found by `List.find?`, and `""` if there is none. -/
theorem selectVaultURL_eq_find (vs : List Vault) :
    selectVaultURL vs
      = ((vs.find? (fun v => v.isDefault && v.isActive)).map
          (fun v => v.connection.url)).getD "" := by
  induction vs with
  | nil => simp [selectVaultURL]
  | cons v rest ih =>
    by_cases h : (v.isDefault && v.isActive) = true
    · simp [selectVaultURL, h, List.find?]
    · simp only [selectVaultURL, h, if_false]
      rw [ih]
      simp [List.find?, h]

/-! ## C1 — the token-cache expiry margin -/

/-- C1, counterexample.  The claim predicts that for `expiresIn = 100` the
stored expiry is `issued_at + 90` (a 10% early-refresh margin).  With
`issued_at = 1000` the code stores `1010 = issued_at + 10`: it subtracts
`floor(expiresIn · 0.9)`, not `floor(expiresIn · 0.1)`. -/
theorem setCacheAccessToken_margin_counterexample :
    lookupEnv (setCacheAccessToken [] 1000 "tok" 100 "https://example.com/")
        (cacheKey "https://example.com/")
      = some (.tokenJSON "tok" 1010) ∧ (1010 : Int) ≠ 1000 + 90 := by
  exact ⟨by rfl, by decide⟩

/-- C1, amended: for every call to `setCacheAccessToken` with expiry
parameter `expiresIn`, the stored expiry equals
`issued_at + expiresIn − floor(expiresIn × 0.9)` — the code keeps only a
tenth of the token's lifetime; in particular, for `expiresIn = 100` the
computed expiry equals `issued_at + 10`. -/
theorem setCacheAccessToken_expiry (env : Env) (now : Int) (value : String)
    (expiresIn : Int) (baseURL : String) :
    lookupEnv (setCacheAccessToken env now value expiresIn baseURL)
        (cacheKey baseURL)
      = some (.tokenJSON value (now + expiresIn - ⌊(9 * expiresIn : ℚ) / 10⌋)) ∧
    (expiresIn = 100 →
      lookupEnv (setCacheAccessToken env now value expiresIn baseURL)
          (cacheKey baseURL)
        = some (.tokenJSON value (now + 10))) := by
  constructor
  · rw [setCacheAccessToken, ← floorPointNine_eq_floor]
    exact lookup_setenv_self ..
  · intro h
    subst h
    have e1 : now + (100 : ℤ) - floorPointNine 100 = now + 10 := by
      rw [show floorPointNine 100 = 90 from by decide]; omega
    calc lookupEnv (setCacheAccessToken env now value 100 baseURL) (cacheKey baseURL)
        = some (.tokenJSON value (now + 100 - floorPointNine 100)) := by
          simp only [setCacheAccessToken]
          exact lookup_setenv_self ..
      _ = some (.tokenJSON value (now + 10)) := by rw [e1]

/-- C1 witness: the amended statement evaluated at a concrete call. -/
theorem setCacheAccessToken_expiry_witness :
    lookupEnv (setCacheAccessToken [] 1000 "tok" 100 "u") (cacheKey "u")
      = some (.tokenJSON "tok" (1000 + 10)) :=
  (setCacheAccessToken_expiry [] 1000 "tok" 100 "u").2 rfl

/-! ## C2 — stale cache reads -/

/-- C2, counterexample.  The claim says reading a stale entry "also
removes it".  With a stale entry (`expires_at = 5`, `now = 10`) the read
reports not-found but returns the environment unchanged: the entry is
still present afterwards. -/
theorem getCacheAccessToken_stale_counterexample :
    getCacheAccessToken
        ⟨⟨"", "", "", ""⟩, "https://u/", "", ""⟩
        [(cacheKey "https://u/", .tokenJSON "tok" 5)] 10 "https://u/"
      = (("", false), [(cacheKey "https://u/", .tokenJSON "tok" 5)]) ∧
    lookupEnv [(cacheKey "https://u/", .tokenJSON "tok" 5)]
        (cacheKey "https://u/")
      = some (.tokenJSON "tok" 5) := by
  exact ⟨by rfl, by rfl⟩

/-- C2, amended: for every cache key and current time `now`,
`getCacheAccessToken` returns `found = false` whenever
`now ≥ expires_at`; the stale entry is **not** removed — the store is
returned unchanged — but a subsequent `get` on the same key without an
intervening `set`, at any time past the expiry, still returns
`found = false`. -/
theorem getCacheAccessToken_stale (s : Server) (env : Env) (now : Int)
    (baseURL : String) (v : EnvVal) (cache : TokenCache)
    (hv : lookupEnv env (cacheKey baseURL) = some v)
    (hc : unmarshalTokenCache v = some cache)
    (hstale : cache.expiresIn ≤ now) :
    getCacheAccessToken s env now baseURL = (("", false), env) ∧
    ∀ now2 : Int, cache.expiresIn ≤ now2 →
      getCacheAccessToken s env now2 baseURL = (("", false), env) := by
  refine ⟨?_, fun now2 h2 => ?_⟩
  · simp [getCacheAccessToken, hv, hc, Int.not_lt.mpr hstale]
  · simp [getCacheAccessToken, hv, hc, Int.not_lt.mpr h2]

/-- C2 witness: the amended statement evaluated on a concrete stale
entry. -/
theorem getCacheAccessToken_stale_witness :
    getCacheAccessToken ⟨⟨"", "", "", ""⟩, "https://u/", "", ""⟩
        [(cacheKey "https://u/", .tokenJSON "tok" 5)] 7 "https://u/"
      = (("", false), [(cacheKey "https://u/", .tokenJSON "tok" 5)]) ∧
    getCacheAccessToken ⟨⟨"", "", "", ""⟩, "https://u/", "", ""⟩
        [(cacheKey "https://u/", .tokenJSON "tok" 5)] 9 "https://u/"
      = (("", false), [(cacheKey "https://u/", .tokenJSON "tok" 5)]) := by
  have h := getCacheAccessToken_stale ⟨⟨"", "", "", ""⟩, "https://u/", "", ""⟩
    [(cacheKey "https://u/", .tokenJSON "tok" 5)] 7 "https://u/"
    (.tokenJSON "tok" 5) ⟨"tok", 5⟩ (by rfl) (by rfl) (by decide)
  exact ⟨h.1, h.2 9 (by decide)⟩

/-! ## C3 — a static token bypasses everything -/

/-- C3: for every `Server` whose `Credentials.Token` is non-empty,
`getAccessToken` returns exactly that token, performs no network call
(empty trace: no health probe, no grant, no vault discovery), leaves the
receiver unchanged, and writes nothing to the token-cache environment. -/
theorem getAccessToken_static_token (s : Server) (env : Env) (now : Int)
    (o : Oracle) (h : s.credentials.token ≠ "") :
    getAccessToken s env now o = (.ok s.credentials.token, s, env, []) := by
  simp [getAccessToken, h]

/-- C3 witness: a concrete server with a static token. -/
theorem getAccessToken_static_token_witness :
    getAccessToken ⟨⟨"", "", "", "statictok"⟩, "https://u/", "", ""⟩
        [] 0 ⟨.netError, .netError, .failure, .failure, .failure⟩
      = (.ok "statictok", ⟨⟨"", "", "", "statictok"⟩, "https://u/", "", ""⟩, [], []) :=
  getAccessToken_static_token ⟨⟨"", "", "", "statictok"⟩, "https://u/", "", ""⟩
    [] 0 ⟨.netError, .netError, .failure, .failure, .failure⟩ (by decide)

/-! ## C4 — cache clearing on 401/403 -/

/-- C4, counterexample.  The claim says *both* `accessResource` and
`searchResources` clear the cache entry on a 401/403 response.
`searchResources` binds the status code to `_` and never clears: on a 401
it leaves the environment untouched, and the next acquisition still
returns the old cached token from the cache (empty grant-free trace after
the health probe), not a fresh grant. -/
theorem searchResources_unauthorized_counterexample :
    searchResources ⟨⟨"", "alice", "pw", ""⟩, "https://u/", "", ""⟩
        [(cacheKey "https://u/", .tokenJSON "cached" 100)] 10
        ⟨.bodyRead "" (some true), .netError, .failure, .failure, .failure⟩
        "secrets" ⟨"", 401, none⟩
      = (("", none), ⟨⟨"", "alice", "pw", ""⟩, "https://u/", "", ""⟩,
         [(cacheKey "https://u/", .tokenJSON "cached" 100)]) ∧
    getAccessToken ⟨⟨"", "alice", "pw", ""⟩, "https://u/", "", ""⟩
        [(cacheKey "https://u/", .tokenJSON "cached" 100)] 10
        ⟨.bodyRead "" (some true), .netError, .failure, .failure, .failure⟩
      = (.ok "cached", ⟨⟨"", "alice", "pw", ""⟩, "https://u/", "", ""⟩,
         [(cacheKey "https://u/", .tokenJSON "cached" 100)], [.getSSHealth]) := by
  exact ⟨by rfl, by rfl⟩

/-- C4, amended: a 401 or 403 on `accessResource` clears the token-cache
entry keyed by the server's current base URL, so the next cache read for
that identity misses (`found = false`) and a fresh grant is required;
`searchResources`, however, discards the status code and never clears the
cache. -/
theorem accessResource_unauthorized_clears (s : Server) (env : Env)
    (now : Int) (o : Oracle) (resource : String) (apiResp : ApiResponse)
    (tok : String) (s1 : Server) (env1 : Env) (tr : List NetEvent)
    (hres : resource = "secrets" ∨ resource = "secret-templates")
    (hget : getAccessToken s env now o = (.ok tok, s1, env1, tr))
    (hstatus : apiResp.statusCode = 401 ∨ apiResp.statusCode = 403) :
    accessResource s env now o resource apiResp
      = ((apiResp.data, apiResp.err), s1, clearTokenCache s1 env1) ∧
    (getCacheAccessToken s1 (clearTokenCache s1 env1) now s1.baseURL).1
      = ("", false) ∧
    searchResources s env now o "secrets" apiResp
      = ((apiResp.data, apiResp.err), s1, env1) := by
  refine ⟨?_, ?_, ?_⟩
  · rcases hres with hr | hr <;> rcases hstatus with h4 | h4 <;>
      simp [accessResource, hr, hget, h4]
  · simp [getCacheAccessToken, clearTokenCache, lookup_setenv_self,
      unmarshalTokenCache]
  · simp [searchResources, hget]

/-- C4 witness: the amended statement on a concrete 401 scenario with a
freshly cached token. -/
theorem accessResource_unauthorized_clears_witness :
    accessResource ⟨⟨"", "alice", "pw", ""⟩, "https://u/", "", ""⟩
        [(cacheKey "https://u/", .tokenJSON "cached" 100)] 10
        ⟨.bodyRead "" (some true), .netError, .failure, .failure, .failure⟩
        "secrets" ⟨"", 401, none⟩
      = (("", none), ⟨⟨"", "alice", "pw", ""⟩, "https://u/", "", ""⟩,
         clearTokenCache ⟨⟨"", "alice", "pw", ""⟩, "https://u/", "", ""⟩
           [(cacheKey "https://u/", .tokenJSON "cached" 100)]) :=
  (accessResource_unauthorized_clears
    ⟨⟨"", "alice", "pw", ""⟩, "https://u/", "", ""⟩
    [(cacheKey "https://u/", .tokenJSON "cached" 100)] 10
    ⟨.bodyRead "" (some true), .netError, .failure, .failure, .failure⟩
    "secrets" ⟨"", 401, none⟩ "cached"
    ⟨⟨"", "alice", "pw", ""⟩, "https://u/", "", ""⟩
    [(cacheKey "https://u/", .tokenJSON "cached" 100)] [.getSSHealth]
    (Or.inl rfl) (by rfl) (Or.inl rfl)).1

/-! ## C5 — deployment detection -/

/-- C5: deployment detection is a deterministic function of the two probe
outcomes.  (1) If the on-prem/cloud probe (`healthcheck.aspx`) reports
healthy, `checkPlatformDetails` returns the empty marker (`.ok ""`) that
selects the password-grant flow, having probed nothing else and touched
nothing.  (2) If neither probe reports healthy, it fails with the
invalid-deployment error (`"invalid URL"`).  (3) If only the platform
probe reports healthy (shown here from a cache miss with a successful
grant and vault discovery), the platform flow runs.  (4) A network error
on a probe counts as "not healthy" and is not propagated.  (5) In the
on-prem case with a cache miss, `getAccessToken` completes by a password
grant. -/
theorem checkPlatformDetails_dispatch (s : Server) (env : Env) (now : Int)
    (o : Oracle) (baseURL : String) :
    (checkJSONResponse o.ssProbe = true →
      checkPlatformDetails s env now o baseURL
        = (.ok "", s, env, [.getSSHealth])) ∧
    (checkJSONResponse o.ssProbe = false →
      checkJSONResponse o.platformProbe = false →
      checkPlatformDetails s env now o baseURL
        = (.error .invalidURL, s, env, [.getSSHealth, .getPlatformHealth])) ∧
    (∀ tk vr, checkJSONResponse o.ssProbe = false →
      checkJSONResponse o.platformProbe = true →
      lookupEnv env (cacheKey baseURL) = none →
      o.platformTokenResp = .success tk →
      o.vaultsResp = .success vr →
      selectVaultURL vr.vaults ≠ "" →
      checkPlatformDetails s env now o baseURL
        = (.ok tk.accessToken, { s with serverURL := selectVaultURL vr.vaults },
           setCacheAccessToken (clearTokenCache s env) now tk.accessToken
             tk.expiresIn baseURL,
           [.getSSHealth, .getPlatformHealth, .postPlatformToken, .getVaults])) ∧
    (checkJSONResponse .netError = false) ∧
    (∀ g, s.credentials.token = "" →
      checkJSONResponse o.ssProbe = true →
      lookupEnv env (cacheKey s.baseURL) = none →
      o.passwordGrantResp = .success g →
      getAccessToken s env now o
        = (.ok g.accessToken, s,
           setCacheAccessToken (clearTokenCache s env) now g.accessToken
             g.expiresIn s.baseURL,
           [.getSSHealth, .postPasswordGrant])) := by
  refine ⟨fun h1 => ?_, fun h1 h2 => ?_, fun tk vr h1 h2 hmiss htk hvr hurl => ?_,
    rfl, fun g htok h1 hmiss hg => ?_⟩
  · simp [checkPlatformDetails, h1]
  · simp [checkPlatformDetails, h1, h2]
  · simp [checkPlatformDetails, h1, h2, getCacheAccessToken, hmiss, htk, hvr, hurl]
  · simp [getAccessToken, htok, checkPlatformDetails, h1, getCacheAccessToken,
      hmiss, hg]

/-- C5 witness: concrete probe outcomes exercising the on-prem branch and
the neither-healthy branch (a network error on the first probe, a
non-JSON body without the text `"Healthy"` on the second). -/
theorem checkPlatformDetails_dispatch_witness :
    checkPlatformDetails ⟨⟨"", "alice", "pw", ""⟩, "https://u/", "", ""⟩ [] 0
        ⟨.bodyRead "json healthy body" (some true), .netError, .failure,
         .failure, .failure⟩ "https://u/"
      = (.ok "", ⟨⟨"", "alice", "pw", ""⟩, "https://u/", "", ""⟩, [],
         [.getSSHealth]) ∧
    checkPlatformDetails ⟨⟨"", "alice", "pw", ""⟩, "https://u/", "", ""⟩ [] 0
        ⟨.netError, .bodyRead "down" none, .failure, .failure, .failure⟩
        "https://u/"
      = (.error .invalidURL, ⟨⟨"", "alice", "pw", ""⟩, "https://u/", "", ""⟩,
         [], [.getSSHealth, .getPlatformHealth]) :=
  ⟨(checkPlatformDetails_dispatch ⟨⟨"", "alice", "pw", ""⟩, "https://u/", "", ""⟩
      [] 0 ⟨.bodyRead "json healthy body" (some true), .netError, .failure,
        .failure, .failure⟩ "https://u/").1 (by rfl),
   (checkPlatformDetails_dispatch ⟨⟨"", "alice", "pw", ""⟩, "https://u/", "", ""⟩
      [] 0 ⟨.netError, .bodyRead "down" none, .failure, .failure, .failure⟩
      "https://u/").2.1 (by rfl) (by decide)⟩

/-! ## C6 — vault resolution -/

/-- C6, counterexample.  The claim says resolution fails with
`NoVaultFound` only "if the list is empty or no vault satisfies both
flags".  Here a vault satisfies `isDefault && isActive` but its connection
URL is the empty string; the loop selects it, and the `vaultURL != ""`
guard then fails the acquisition with `NoVaultFound` anyway. -/
theorem vault_empty_url_counterexample :
    ((Vault.mk "v1" "n" "t" true false true ⟨"", ""⟩).isDefault &&
     (Vault.mk "v1" "n" "t" true false true ⟨"", ""⟩).isActive) = true ∧
    (checkPlatformDetails ⟨⟨"", "alice", "pw", ""⟩, "https://u/", "", ""⟩ [] 0
        ⟨.netError, .bodyRead "" (some true),
         .success ⟨"ptok", "", "", "", 3600, 0, ""⟩,
         .success ⟨[⟨"v1", "n", "t", true, false, true, ⟨"", ""⟩⟩]⟩,
         .failure⟩ "https://u/").1
      = .error .noVaultFound := by
  exact ⟨rfl, by rfl⟩

/-- C6, amended: vault resolution selects the first vault with
`isDefault == true && isActive == true` (the `List.find?` of the discovery
list) and pins its connection URL as the new `ServerURL`, provided that
URL is non-empty; it fails with `NoVaultFound` — never falling back to any
other vault — when the list is empty, no vault satisfies both flags, or
the first satisfying vault's connection URL is the empty string.  (Stated
on the platform path entered with a valid cached platform token.) -/
theorem checkPlatformDetails_vault_selection (s : Server) (env : Env)
    (now : Int) (o : Oracle) (baseURL : String)
    (v : EnvVal) (cache : TokenCache) (vr : VaultsResponseModel)
    (hss : checkJSONResponse o.ssProbe = false)
    (hpl : checkJSONResponse o.platformProbe = true)
    (hv : lookupEnv env (cacheKey baseURL) = some v)
    (hc : unmarshalTokenCache v = some cache)
    (hfresh : now < cache.expiresIn)
    (hvr : o.vaultsResp = .success vr) :
    (∀ v', vr.vaults.find? (fun x => x.isDefault && x.isActive) = some v' →
      v'.connection.url ≠ "" →
      checkPlatformDetails s env now o baseURL
        = (.ok cache.accessToken, { s with serverURL := v'.connection.url },
           env, [.getSSHealth, .getPlatformHealth, .getVaults])) ∧
    (vr.vaults.find? (fun x => x.isDefault && x.isActive) = none →
      checkPlatformDetails s env now o baseURL
        = (.error .noVaultFound, s, env,
           [.getSSHealth, .getPlatformHealth, .getVaults])) ∧
    (∀ v', vr.vaults.find? (fun x => x.isDefault && x.isActive) = some v' →
      v'.connection.url = "" →
      checkPlatformDetails s env now o baseURL
        = (.error .noVaultFound, s, env,
           [.getSSHealth, .getPlatformHealth, .getVaults])) := by
  refine ⟨fun v' hfind hurl => ?_, fun hfind => ?_, fun v' hfind hurl => ?_⟩
  · simp [checkPlatformDetails, hss, hpl, getCacheAccessToken, hv, hc, hfresh,
      hvr, selectVaultURL_eq_find, hfind, hurl]
  · simp [checkPlatformDetails, hss, hpl, getCacheAccessToken, hv, hc, hfresh,
      hvr, selectVaultURL_eq_find, hfind]
  · simp [checkPlatformDetails, hss, hpl, getCacheAccessToken, hv, hc, hfresh,
      hvr, selectVaultURL_eq_find, hfind, hurl]

/-- C6 witness: a discovery list of two vaults where only the second
satisfies both flags; resolution pins the second vault's URL. -/
theorem checkPlatformDetails_vault_selection_witness :
    checkPlatformDetails ⟨⟨"", "alice", "pw", ""⟩, "https://u/", "", ""⟩
        [(cacheKey "https://u/", .tokenJSON "ptok" 100)] 0
        ⟨.netError, .bodyRead "" (some true), .failure,
         .success ⟨[⟨"v1", "n", "t", true, false, false, ⟨"https://no/", ""⟩⟩,
                    ⟨"v2", "n", "t", true, false, true, ⟨"https://vault/", ""⟩⟩]⟩,
         .failure⟩ "https://u/"
      = (.ok "ptok",
         ⟨⟨"", "alice", "pw", ""⟩, "https://vault/", "", ""⟩,
         [(cacheKey "https://u/", .tokenJSON "ptok" 100)],
         [.getSSHealth, .getPlatformHealth, .getVaults]) :=
  (checkPlatformDetails_vault_selection
    ⟨⟨"", "alice", "pw", ""⟩, "https://u/", "", ""⟩
    [(cacheKey "https://u/", .tokenJSON "ptok" 100)] 0
    ⟨.netError, .bodyRead "" (some true), .failure,
     .success ⟨[⟨"v1", "n", "t", true, false, false, ⟨"https://no/", ""⟩⟩,
                ⟨"v2", "n", "t", true, false, true, ⟨"https://vault/", ""⟩⟩]⟩,
     .failure⟩ "https://u/"
    (.tokenJSON "ptok" 100) ⟨"ptok", 100⟩ _
    rfl rfl (by rfl) rfl (by decide) rfl).1
    ⟨"v2", "n", "t", true, false, true, ⟨"https://vault/", ""⟩⟩
    (by rfl) (by decide)

/-! ## C7 — the NTLM negotiate leg -/

/-- C7: `doNTLMNegotiate` succeeds exactly when the response (besides
carrying status 401) has exactly one `WWW-Authenticate` header, of length
at least 6, prefixed `"NTLM "`, whose remainder base64-decodes; any
deviation returns an error, and a negotiate-leg error makes `RoundTrip`
return it with only the probe and negotiate legs sent — the authenticate
leg is never issued. -/
theorem doNTLMNegotiate_shape (decode : String → Option (List Nat))
    (resp : Option NtlmResponse) :
    ((∃ out, doNTLMNegotiate decode resp = .ok out) ↔
      (∃ res h challenge, resp = some res ∧ res.statusCode = 401 ∧
        res.wwwAuthenticate = some [h] ∧ 6 ≤ h.length ∧
        goStartsWith h "NTLM " = true ∧ decode (h.drop 5) = some challenge)) ∧
    (∀ (o : NtlmOracle) (e : String), o.acquireCredsOk = true →
      checkNTLM o.probeResp = .ok () →
      doNTLMNegotiate decode o.negotiateResp = .error e →
      ntlmRoundTrip decode o = (.error e, [.probeReq, .negotiateReq])) := by
  constructor
  · constructor
    · rintro ⟨out, hout⟩
      cases resp with
      | none => simp [doNTLMNegotiate] at hout
      | some res =>
        by_cases h401 : res.statusCode = 401
        · cases hwa : res.wwwAuthenticate with
          | none => simp [doNTLMNegotiate, h401, hwa] at hout
          | some hs =>
            match hs, hwa with
            | [], hwa => simp [doNTLMNegotiate, h401, hwa] at hout
            | [h], hwa =>
              by_cases hlen : h.length < 6
              · simp [doNTLMNegotiate, h401, hwa, hlen] at hout
              · by_cases hpre : goStartsWith h "NTLM " = true
                · cases hdec : decode (h.drop 5) with
                  | none =>
                    simp [doNTLMNegotiate, h401, hwa, hlen, hpre, hdec] at hout
                  | some challenge =>
                    exact ⟨res, h, challenge, rfl, h401, hwa,
                      Nat.not_lt.mp hlen, hpre, hdec⟩
                · simp [doNTLMNegotiate, h401, hwa, hlen, hpre] at hout
            | h1 :: h2 :: hs', hwa =>
              simp [doNTLMNegotiate, h401, hwa] at hout
        · simp [doNTLMNegotiate, h401] at hout
    · rintro ⟨res, h, challenge, rfl, h401, hwa, hlen, hpre, hdec⟩
      exact ⟨challenge,
        by simp [doNTLMNegotiate, h401, hwa, Nat.not_lt.mpr hlen, hpre, hdec]⟩
  · intro o e hcred hprobe hneg
    simp [ntlmRoundTrip, hcred, hprobe, hneg]

/-- C7 witness: a well-shaped negotiate response succeeds; a negotiate
response with a non-401 status aborts the handshake after the negotiate
leg, before the authenticate leg. -/
theorem doNTLMNegotiate_shape_witness :
    (∃ out, doNTLMNegotiate
        (fun str => if str = "Qg==" then some [66] else none)
        (some ⟨401, some ["NTLM Qg=="]⟩) = .ok out) ∧
    ntlmRoundTrip (fun str => if str = "Qg==" then some [66] else none)
        ⟨true, [1], some ⟨401, some ["NTLM"]⟩, some ⟨500, none⟩,
         fun _ => some [3], 200⟩
      = (.error "Unauthorized expected", [.probeReq, .negotiateReq]) :=
  ⟨(doNTLMNegotiate_shape (fun str => if str = "Qg==" then some [66] else none)
      (some ⟨401, some ["NTLM Qg=="]⟩)).1.mpr
      ⟨⟨401, some ["NTLM Qg=="]⟩, "NTLM Qg==", [66], rfl, rfl, rfl,
        by decide, by decide, by decide⟩,
   (doNTLMNegotiate_shape (fun str => if str = "Qg==" then some [66] else none)
      (some ⟨401, some ["NTLM"]⟩)).2
      ⟨true, [1], some ⟨401, some ["NTLM"]⟩, some ⟨500, none⟩,
       fun _ => some [3], 200⟩
      "Unauthorized expected" rfl (by rfl) (by rfl)⟩

/-! ## C8 — NTLM on non-Windows platforms -/

/-- C8, counterexample.  The claim says the attempt "fails immediately
with an `UnsupportedCapability` error returned to the caller".  The
non-Windows `RoundTrip` does not return an error value at all: it panics,
aborting the process. -/
theorem ntlmRoundTripOthers_counterexample :
    ntlmRoundTripOthers "/api/v1/secrets/1"
      = .panicked "NTLM authentication is only implemented on Windows" ∧
    (ntlmRoundTripOthers "/api/v1/secrets/1").isErr = false := by
  exact ⟨rfl, rfl⟩

/-- C8, amended: on every platform lacking the OS NTLM capability (any
non-Windows build), every attempt to use the NTLM authenticator's
`RoundTrip` fails immediately — not a silent no-op — but by panicking with
`"NTLM authentication is only implemented on Windows"`, aborting the
process rather than returning an error value to the caller. -/
theorem ntlmRoundTripOthers_panics (reqURLPath : String) :
    ntlmRoundTripOthers reqURLPath
      = .panicked "NTLM authentication is only implemented on Windows" ∧
    (ntlmRoundTripOthers reqURLPath).isPanicked = true ∧
    (ntlmRoundTripOthers reqURLPath).isErr = false :=
  ⟨rfl, rfl, rfl⟩

/-! ## C9 — a cache miss is not read-only -/

/-- C9: a `getCacheAccessToken` on a key with no stored entry invokes
`clearTokenCache`, which writes an empty-string entry keyed by the
server's *currently configured* base URL — a key that may differ from the
one being read (see the witness, where `ServerURL` has been overwritten by
vault pinning). -/
theorem getCacheAccessToken_miss_writes (s : Server) (env : Env) (now : Int)
    (baseURL : String)
    (hmiss : lookupEnv env (cacheKey baseURL) = none) :
    getCacheAccessToken s env now baseURL
      = (("", false), setenv env (cacheKey s.baseURL) .emptyStr) ∧
    lookupEnv (getCacheAccessToken s env now baseURL).2 (cacheKey s.baseURL)
      = some .emptyStr := by
  constructor
  · simp [getCacheAccessToken, hmiss, clearTokenCache]
  · simp [getCacheAccessToken, hmiss, clearTokenCache, lookup_setenv_self]

/-- C9 witness: a server whose `ServerURL` was pinned to a vault URL, read
with the original base URL as key: the miss writes an empty entry under
the pinned URL's key, which differs from the key being read. -/
theorem getCacheAccessToken_miss_writes_witness :
    getCacheAccessToken ⟨⟨"", "", "", ""⟩, "https://pinned/", "", ""⟩ [] 0
        "https://original/"
      = (("", false), setenv [] (cacheKey "https://pinned/") .emptyStr) ∧
    cacheKey "https://pinned/" ≠ cacheKey "https://original/" :=
  ⟨(getCacheAccessToken_miss_writes
      ⟨⟨"", "", "", ""⟩, "https://pinned/", "", ""⟩ [] 0
      "https://original/" rfl).1, by decide⟩

/-! ## C10 — `New` with a TLS configuration -/

/-- C10, counterexample.  The claim quantifies over *every* configuration
with a non-nil `TLSClientConfig`.  A configuration that also fails the
ServerURL-xor-Tenant validation makes `New` return the configuration
error before reaching the TLS assignment: no panic, even though no
suitable HTTP client was supplied. -/
theorem New_tls_validation_counterexample :
    (Configuration.mk ⟨"", "", "", ""⟩ "" "" "" "" "" (some ())).tlsClientConfig
      ≠ none ∧
    New ⟨⟨"", "", "", ""⟩, "", "", "", "", "", some ()⟩ none
      = .err "either ServerURL of Secret Server/Platform or Tenant of Secret Server Cloud must be set" ∧
    (New ⟨⟨"", "", "", ""⟩, "", "", "", "", "", some ()⟩ none).isPanicked
      = false := by
  exact ⟨by decide, by rfl, by rfl⟩

/-- C10, amended: for every Configuration that passes the
ServerURL-xor-Tenant validation and has a non-nil `TLSClientConfig`, `New`
panics unless the caller supplies (via `WithHttpClient`) a client whose
`Transport` is a non-nil `*http.Transport`: with the default client the
nil `Transport` fails the type assertion, so the call aborts instead of
returning an error. -/
theorem New_tls_requires_transport (config : Configuration)
    (optClient : Option HttpClient)
    (hvalid : ¬((config.serverURL = "" ∧ config.tenant = "") ∨
                (config.serverURL ≠ "" ∧ config.tenant ≠ "")))
    (htls : config.tlsClientConfig ≠ none) :
    (New config optClient).isPanicked = false ↔
      ∃ c, optClient = some c ∧ c.transport = some (.httpTransport false) := by
  cases optClient with
  | none => simp [New, hvalid, htls, GoOutcome.isPanicked]
  | some c =>
    match htr : c.transport with
    | none => simp [New, hvalid, htls, htr, GoOutcome.isPanicked]
    | some (.httpTransport true) =>
      simp [New, hvalid, htls, htr, GoOutcome.isPanicked]
    | some (.httpTransport false) =>
      simp [New, hvalid, htls, htr, GoOutcome.isPanicked]
    | some .otherRoundTripper =>
      simp [New, hvalid, htls, htr, GoOutcome.isPanicked]

/-- C10 witness: a valid configuration with TLS settings and a client
carrying a non-nil `*http.Transport` does not panic. -/
theorem New_tls_requires_transport_witness :
    (New ⟨⟨"", "", "", ""⟩, "https://u/", "", "", "", "", some ()⟩
        (some ⟨some (.httpTransport false)⟩)).isPanicked = false :=
  (New_tls_requires_transport
    ⟨⟨"", "", "", ""⟩, "https://u/", "", "", "", "", some ()⟩
    (some ⟨some (.httpTransport false)⟩) (by decide) (by decide)).mpr
    ⟨⟨some (.httpTransport false)⟩, rfl, rfl⟩

end TssSdk
